import Mathlib

/-!
Shallow embedding of the finance-tracker server (`src/server.js`).

The relational datastore is modelled as in-memory lists of rows; MySQL
`AUTO_INCREMENT` ids are modelled by `nextIncomeId` / `nextExpenseId`
counters; `DATE` values are modelled as `YYYY-MM-DD` strings compared with
the lexicographic `String` order (which agrees with calendar order on that
fixed-width format); `DECIMAL` amounts are modelled as `Int`.

JavaScript request bodies are modelled as structures of `Option` fields
(`none` = key absent / `undefined`); JS string truthiness (`!s`) is
`jsStrTruthy`.  `jwt.verify` / `jwt.sign` and `bcrypt.compare` are external
libraries and are modelled as environment parameters.
-/

namespace FinTrack

/-- A row of the `user` table: `email` (unique key), bcrypt `password`
hash, and the `is_admin` column. -/
structure UserRow where
  email : String
  password : String
  is_admin : Bool
deriving DecidableEq

/-- A row of the `income` table. -/
structure IncomeRow where
  id : Nat
  user_email : String
  source : String
  amount : Int
  cadence : String
  date : String
deriving DecidableEq

/-- A row of the `expense` table. -/
structure ExpenseRow where
  id : Nat
  user_email : String
  category : String
  description : Option String
  amount : Int
  date : String
  cadence : String
deriving DecidableEq

/-- The datastore: the three tables, plus the AUTO_INCREMENT counters of
`income` and `expense`.  Row lists are in insertion order (INSERTs
append). -/
structure DB where
  users : List UserRow
  incomes : List IncomeRow
  expenses : List ExpenseRow
  nextIncomeId : Nat
  nextExpenseId : Nat
deriving DecidableEq

/-- JS string truthiness of an optional body/query field: falsy when the
key is absent (`none`) or the value is the empty string. -/
def jsStrTruthy : Option String → Bool
  | none => false
  | some s => s ≠ ""

/-- The payload `jwt.sign({ email: ... })` embeds, together with the
expiry timestamp (`exp`, seconds) that `expiresIn: '1h'` sets. -/
structure JwtClaims where
  email : String
  exp : Nat
deriving DecidableEq

/-- Environment modelling the `jsonwebtoken` library: `decode` maps a
compact token string to its claims and the secret that signed it, or
`none` when the string is not a well-formed JWT. -/
structure JwtEnv where
  decode : String → Option (JwtClaims × String)

/-- Source: `jwt.verify(token, secret)` at clock time `now`: succeeds exactly when
the token parses, its signature was made with `secret`, and it is not yet
expired (`now < exp`). -/
def jwtVerify (env : JwtEnv) (secret : String) (now : Nat) (tok : String) :
    Option JwtClaims :=
  match env.decode tok with
  | none => none
  | some (c, key) => if key = secret ∧ now < c.exp then some c else none

/-- JS `String.prototype.trim()`: strip leading and trailing whitespace. -/
def jsTrim (s : String) : String :=
  String.mk
    (((s.data.dropWhile Char.isWhitespace).reverse.dropWhile
      Char.isWhitespace).reverse)

/-- JS `str.split(sep)` for a one-character separator, on the character
list: splitting the empty string yields `[""]`, as in JS. -/
def jsSplitChars (sep : Char) : List Char → List (List Char)
  | [] => [[]]
  | c :: rest =>
    match jsSplitChars sep rest with
    | [] => if c = sep then [[], []] else [[c]]
    | g :: gs => if c = sep then [] :: g :: gs else (c :: g) :: gs

/-- JS `hdr.split(' ')`. -/
def jsSplitSpace (hdr : String) : List String :=
  (jsSplitChars ' ' hdr.data).map String.mk

/-- Source: `const token = parts.length === 2 && parts[0] === 'Bearer' ? parts[1] : null`
after `hdr.split(' ')`. -/
def extractBearerToken (hdr : String) : Option String :=
  match jsSplitSpace hdr with
  | [scheme, tok] => if scheme = "Bearer" then some tok else none
  | _ => none

/-- Source: `SELECT ... FROM user WHERE email = ?` followed by `rows[0]`. -/
def findUser (db : DB) (email : String) : Option UserRow :=
  (db.users.filter (fun u => u.email == email)).head?

/-- Outcome of the `authenticateToken` middleware: an HTTP error response,
or the identity context it attaches (`req.user.email` and
`req.account.is_admin`). -/
inductive AuthOutcome where
  | fail (status : Nat) (message : String)
  | ok (email : String) (is_admin : Bool)
deriving DecidableEq

/-- The `authenticateToken` middleware of `server.js`.  `hdr?` is the raw
`Authorization` header (`none` when absent; the code reads
`req.headers.authorization || ''`).  Note `server.js` sets
`req.account = { email: rows[0].email, is_admin: 0 }`: the identity
context's admin flag is the constant `0`, not the stored column. -/
def authenticateToken (env : JwtEnv) (secret : String) (now : Nat)
    (db : DB) (hdr? : Option String) : AuthOutcome :=
  match extractBearerToken (hdr?.getD "") with
  | none => .fail 401 "Access denied. No token provided."
  | some tok =>
    if tok = "" then .fail 401 "Access denied. No token provided."
    else
      match jwtVerify env secret now tok with
      | none => .fail 401 "Invalid or expired token."
      | some c =>
        match findUser db c.email with
        | none => .fail 403 "Account not found or deactivated."
        | some _ => .ok c.email false

/-- Outcome of `POST /api/login`. -/
inductive LoginOutcome where
  | fail (status : Nat) (message : String)
  | token (tok : String)
deriving DecidableEq

/-- Source: `POST /api/login`.  `compare` models `bcrypt.compare` (plaintext
against stored hash); `sign` models `jwt.sign({email: ...}, secret,
{expiresIn: '1h'})` producing the compact token string. -/
def login (compare : String → String → Bool) (sign : String → String)
    (db : DB) (email password : Option String) : LoginOutcome :=
  if !jsStrTruthy email || !jsStrTruthy password then
    .fail 400 "Email and password are required."
  else
    match findUser db (email.getD "") with
    | none => .fail 401 "Invalid email or password."
    | some u =>
      if compare (password.getD "") u.password then .token (sign u.email)
      else .fail 401 "Invalid email or password."

/-- Lexicographic order on character lists: `DATE` values are
`YYYY-MM-DD` strings, on which lexicographic string order agrees with
calendar order. -/
def strLeb : List Char → List Char → Bool
  | [], _ => true
  | _ :: _, [] => false
  | c :: cs, d :: ds => if c = d then strLeb cs ds else decide (c < d)

/-- MySQL `DATE` comparison `a <= b` on the modelled date strings. -/
def dateLe (a b : String) : Bool := strLeb a.data b.data

/-- The `(from && to)` guard of the list/report routes: a date range is
applied only when both query parameters are present and truthy. -/
def dateRange (fromQ toQ : Option String) : Option (String × String) :=
  match fromQ, toQ with
  | some f, some t => if f ≠ "" ∧ t ≠ "" then some (f, t) else none
  | _, _ => none

/-- Source: `date BETWEEN ? AND ?` (inclusive); always true when no range is in
the query. -/
def inRange (range : Option (String × String)) (d : String) : Bool :=
  match range with
  | none => true
  | some (f, t) => dateLe f d && dateLe d t

/-- Source: `SELECT * FROM income WHERE user_email=? [AND date BETWEEN ? AND ?]`:
the multiset of rows a list query returns, in table (= insertion) order. -/
def incomeRowsFor (db : DB) (email : String) (fromQ toQ : Option String) :
    List IncomeRow :=
  db.incomes.filter (fun r =>
    r.user_email == email && inRange (dateRange fromQ toQ) r.date)

/-- Source: `SELECT * FROM expense WHERE user_email=? [AND date BETWEEN ? AND ?]`. -/
def expenseRowsFor (db : DB) (email : String) (fromQ toQ : Option String) :
    List ExpenseRow :=
  db.expenses.filter (fun r =>
    r.user_email == email && inRange (dateRange fromQ toQ) r.date)

/-- Result relation of `GET /api/income`: SQL returns the matching rows in
some order consistent with `ORDER BY date DESC`; since the query names no
secondary sort key, any such order is an admissible result. -/
def isIncomeListResult (db : DB) (email : String) (fromQ toQ : Option String)
    (rows : List IncomeRow) : Prop :=
  List.Perm rows (incomeRowsFor db email fromQ toQ) ∧
    rows.Pairwise (fun a b => dateLe b.date a.date = true)

/-- Result relation of `GET /api/expense`, as for income. -/
def isExpenseListResult (db : DB) (email : String) (fromQ toQ : Option String)
    (rows : List ExpenseRow) : Prop :=
  List.Perm rows (expenseRowsFor db email fromQ toQ) ∧
    rows.Pairwise (fun a b => dateLe b.date a.date = true)

/-- Source: `ORDER BY date DESC` with ties broken by insertion order: the stable
descending sort the spec describes (insertion sort is stable). -/
def incomeDateDescRel (a b : IncomeRow) : Prop := dateLe b.date a.date = true

instance : DecidableRel incomeDateDescRel := fun a b =>
  inferInstanceAs (Decidable (dateLe b.date a.date = true))

/-- The canonical date-descending, insertion-order-stable listing the spec
claims the income list endpoint returns. -/
def stableIncomeListing (db : DB) (email : String) (fromQ toQ : Option String) :
    List IncomeRow :=
  List.insertionSort incomeDateDescRel (incomeRowsFor db email fromQ toQ)

/-- Outcome of a create route. -/
inductive CreateOutcome where
  | fail (status : Nat) (message : String)
  | created (id : Nat)
deriving DecidableEq

/-- Body of `POST /api/income`.  The handler destructures only `source`,
`amount`, `cadence`, `date`; `user_email` and `email` model client-supplied
owner fields the handler never reads. -/
structure IncomeBody where
  source : Option String
  amount : Option Int
  cadence : Option String
  date : Option String
  user_email : Option String
  email : Option String
deriving DecidableEq

/-- Source: `POST /api/income`: presence check, then
`INSERT INTO income (user_email, source, amount, cadence, date)` with
`user_email := req.user.email` (`authEmail`), `String(source).trim()`, and
`cadence` defaulting to `'monthly'`. -/
def createIncome (db : DB) (authEmail : String) (b : IncomeBody) :
    DB × CreateOutcome :=
  if !jsStrTruthy b.source || b.amount.isNone || !jsStrTruthy b.date then
    (db, .fail 400 "source, amount, and date are required")
  else
    let row : IncomeRow :=
      { id := db.nextIncomeId
        user_email := authEmail
        source := jsTrim (b.source.getD "")
        amount := b.amount.getD 0
        cadence := b.cadence.getD "monthly"
        date := b.date.getD "" }
    ({ db with incomes := db.incomes ++ [row],
               nextIncomeId := db.nextIncomeId + 1 },
     .created row.id)

/-- Body of `POST /api/expense` (`description` defaults to `null`). -/
structure ExpenseBody where
  category : Option String
  description : Option String
  amount : Option Int
  date : Option String
  cadence : Option String
  user_email : Option String
  email : Option String
deriving DecidableEq

/-- Source: `POST /api/expense`. -/
def createExpense (db : DB) (authEmail : String) (b : ExpenseBody) :
    DB × CreateOutcome :=
  if !jsStrTruthy b.category || b.amount.isNone || !jsStrTruthy b.date then
    (db, .fail 400 "category, amount, and date are required")
  else
    let row : ExpenseRow :=
      { id := db.nextExpenseId
        user_email := authEmail
        category := jsTrim (b.category.getD "")
        description := b.description
        amount := b.amount.getD 0
        date := b.date.getD ""
        cadence := b.cadence.getD "monthly" }
    ({ db with expenses := db.expenses ++ [row],
               nextExpenseId := db.nextExpenseId + 1 },
     .created row.id)

/-- Outcome of an update/delete route. -/
inductive MutOutcome where
  | fail (status : Nat) (message : String)
  | updated
  | deleted
deriving DecidableEq

/-- Partial body of `PATCH /api/income/:id`: `some v` when the key is in
`req.body` (the handler tests `k in req.body`). -/
structure IncomePatch where
  source : Option String
  amount : Option Int
  cadence : Option String
  date : Option String
deriving DecidableEq

/-- Whether the PATCH body names at least one updatable field
(`sets.length > 0`). -/
def IncomePatch.hasFields (p : IncomePatch) : Bool :=
  p.source.isSome || p.amount.isSome || p.cadence.isSome || p.date.isSome

/-- Effect of the generated `UPDATE income SET ...` on one row: each field
present in the body is overwritten; `id` and `user_email` are not in the
updatable field list. -/
def applyIncomePatch (p : IncomePatch) (r : IncomeRow) : IncomeRow :=
  { r with
    source := p.source.getD r.source
    amount := p.amount.getD r.amount
    cadence := p.cadence.getD r.cadence
    date := p.date.getD r.date }

/-- Source: `WHERE id=? AND user_email=?` of the income update/delete statements. -/
def incomeMatch (id : Nat) (authEmail : String) (r : IncomeRow) : Bool :=
  r.id == id && r.user_email == authEmail

/-- Source: `PATCH /api/income/:id`.  MySQL reports `affectedRows` for UPDATE as
the number of rows actually changed; the handler turns 0 into 404. -/
def updateIncome (db : DB) (authEmail : String) (id : Nat) (p : IncomePatch) :
    DB × MutOutcome :=
  if !p.hasFields then (db, .fail 400 "No fields to update.")
  else
    let affected := db.incomes.countP (fun r =>
      incomeMatch id authEmail r && !(applyIncomePatch p r == r))
    let incomes2 := db.incomes.map (fun r =>
      if incomeMatch id authEmail r then applyIncomePatch p r else r)
    let db2 := { db with incomes := incomes2 }
    if affected == 0 then (db2, .fail 404 "Income not found.")
    else (db2, .updated)

/-- Source: `DELETE /api/income/:id`: `DELETE FROM income WHERE id=? AND
user_email=?`; `affectedRows` is the number of rows removed. -/
def deleteIncome (db : DB) (authEmail : String) (id : Nat) :
    DB × MutOutcome :=
  let affected := db.incomes.countP (incomeMatch id authEmail)
  let remaining := db.incomes.filter (fun r => !incomeMatch id authEmail r)
  let db2 := { db with incomes := remaining }
  if affected == 0 then (db2, .fail 404 "Income not found.")
  else (db2, .deleted)

/-- Partial body of `PATCH /api/expense/:id` (`description` may be set). -/
structure ExpensePatch where
  category : Option String
  description : Option (Option String)
  amount : Option Int
  date : Option String
  cadence : Option String
deriving DecidableEq

/-- Whether the expense PATCH body names at least one updatable field. -/
def ExpensePatch.hasFields (p : ExpensePatch) : Bool :=
  p.category.isSome || p.description.isSome || p.amount.isSome ||
    p.date.isSome || p.cadence.isSome

/-- Effect of the generated `UPDATE expense SET ...` on one row. -/
def applyExpensePatch (p : ExpensePatch) (r : ExpenseRow) : ExpenseRow :=
  { r with
    category := p.category.getD r.category
    description := p.description.getD r.description
    amount := p.amount.getD r.amount
    date := p.date.getD r.date
    cadence := p.cadence.getD r.cadence }

/-- Source: `WHERE id=? AND user_email=?` of the expense update/delete statements. -/
def expenseMatch (id : Nat) (authEmail : String) (r : ExpenseRow) : Bool :=
  r.id == id && r.user_email == authEmail

/-- Source: `PATCH /api/expense/:id`. -/
def updateExpense (db : DB) (authEmail : String) (id : Nat) (p : ExpensePatch) :
    DB × MutOutcome :=
  if !p.hasFields then (db, .fail 400 "No fields to update.")
  else
    let affected := db.expenses.countP (fun r =>
      expenseMatch id authEmail r && !(applyExpensePatch p r == r))
    let expenses2 := db.expenses.map (fun r =>
      if expenseMatch id authEmail r then applyExpensePatch p r else r)
    let db2 := { db with expenses := expenses2 }
    if affected == 0 then (db2, .fail 404 "Expense not found.")
    else (db2, .updated)

/-- Source: `DELETE /api/expense/:id`. -/
def deleteExpense (db : DB) (authEmail : String) (id : Nat) :
    DB × MutOutcome :=
  let affected := db.expenses.countP (expenseMatch id authEmail)
  let remaining := db.expenses.filter (fun r => !expenseMatch id authEmail r)
  let db2 := { db with expenses := remaining }
  if affected == 0 then (db2, .fail 404 "Expense not found.")
  else (db2, .deleted)

/-- Source: `SELECT IFNULL(SUM(amount), 0) ... FROM income WHERE user_email=?
[AND date BETWEEN ? AND ?]`. -/
def incomeTotal (db : DB) (email : String) (fromQ toQ : Option String) : Int :=
  ((incomeRowsFor db email fromQ toQ).map (fun r => r.amount)).sum

/-- Source: `SELECT IFNULL(SUM(amount), 0) ... FROM expense ...`. -/
def expenseTotal (db : DB) (email : String) (fromQ toQ : Option String) : Int :=
  ((expenseRowsFor db email fromQ toQ).map (fun r => r.amount)).sum

/-- Source: `SUM(amount)` of one `GROUP BY category` group. -/
def categoryTotal (rows : List ExpenseRow) (c : String) : Int :=
  ((rows.filter (fun r => r.category == c)).map (fun r => r.amount)).sum

/-- The `GROUP BY category` result rows `(category, SUM(amount))`, one per
distinct category, before ordering. -/
def groupTotals (rows : List ExpenseRow) : List (String × Int) :=
  ((rows.map (fun r => r.category)).dedup).map
    (fun c => (c, categoryTotal rows c))

/-- Source: `ORDER BY total DESC` on the breakdown rows. -/
def catDescRel (a b : String × Int) : Prop := b.2 ≤ a.2

instance : DecidableRel catDescRel := fun a b =>
  inferInstanceAs (Decidable (b.2 ≤ a.2))

instance : IsTotal (String × Int) catDescRel :=
  ⟨fun a b => le_total b.2 a.2⟩

instance : IsTrans (String × Int) catDescRel :=
  ⟨fun _ _ _ h1 h2 => le_trans h2 h1⟩

/-- The `totals` object of `GET /api/reports`. -/
structure ReportTotals where
  income : Int
  expenses : Int
  net : Int
deriving DecidableEq

/-- The response body of `GET /api/reports`. -/
structure Report where
  totals : ReportTotals
  expensesByCategory : List (String × Int)
deriving DecidableEq

/-- Source: `GET /api/reports`: the two scalar sums, `net := income - expenses`,
and the category breakdown ordered by total descending (insertion sort is
one order admissible for `ORDER BY total DESC`). -/
def buildReport (db : DB) (email : String) (fromQ toQ : Option String) :
    Report :=
  let income := incomeTotal db email fromQ toQ
  let expenses := expenseTotal db email fromQ toQ
  { totals := { income := income, expenses := expenses,
                net := income - expenses }
    expensesByCategory :=
      List.insertionSort catDescRel
        (groupTotals (expenseRowsFor db email fromQ toQ)) }

/-- The datastore restricted to one owner's financial records (the `user`
table untouched): used to state that reports never read other users' rows. -/
def restrictToOwner (db : DB) (email : String) : DB :=
  { db with
    incomes := db.incomes.filter (fun r => r.user_email == email)
    expenses := db.expenses.filter (fun r => r.user_email == email) }

/-- Source: `GET /api/users` (after `authenticateToken`): `SELECT email FROM user`
over the whole table, mapped to the email list. -/
def getUsersEmails (db : DB) : List String :=
  db.users.map (fun u => u.email)

/-- Outcome of `GET /api/users` including the middleware. -/
inductive UsersOutcome where
  | fail (status : Nat) (message : String)
  | ok (emails : List String)
deriving DecidableEq

/-- The full `GET /api/users` pipeline: `authenticateToken`, then the
handler (which ignores the identity context entirely: `(_req, res)`). -/
def usersEndpoint (env : JwtEnv) (secret : String) (now : Nat) (db : DB)
    (hdr? : Option String) : UsersOutcome :=
  match authenticateToken env secret now db hdr? with
  | .fail s m => .fail s m
  | .ok _ _ => .ok (getUsersEmails db)

/-- Source: `ORDER BY email` on `user` rows. -/
def emailAscRel (a b : UserRow) : Prop := a.email ≤ b.email

instance : DecidableRel emailAscRel := fun a b =>
  inferInstanceAs (Decidable (a.email ≤ b.email))

/-- Outcome of `GET /api/admin/users`. -/
inductive AdminOutcome where
  | fail (status : Nat) (message : String)
  | ok (users : List (String × Bool))
deriving DecidableEq

/-- The full `GET /api/admin/users` pipeline: `authenticateToken`, then
`authorizeAdmin` (`if (!req.account?.is_admin) 403`), then
`SELECT email, is_admin FROM user ORDER BY email`. -/
def adminUsersEndpoint (env : JwtEnv) (secret : String) (now : Nat)
    (db : DB) (hdr? : Option String) : AdminOutcome :=
  match authenticateToken env secret now db hdr? with
  | .fail s m => .fail s m
  | .ok _ isAdm =>
    if !isAdm then .fail 403 "Admin privileges required."
    else .ok ((List.insertionSort emailAscRel db.users).map
      (fun u => (u.email, u.is_admin)))

/-! ## Concrete fixtures for closed instances -/

/-- Concrete JWT environment: `"tok"` is a token for a registered
account, `"gone"` a still-valid token whose account does not exist, both
signed with `"secret0"` and expiring at time 100. -/
def envW : JwtEnv :=
  ⟨fun s =>
    if s = "tok" then
      some ({ email := "alice@example.com", exp := 100 }, "secret0")
    else if s = "gone" then
      some ({ email := "ghost@example.com", exp := 100 }, "secret0")
    else none⟩

/-- Concrete datastore with one registered account. -/
def dbW : DB :=
  { users := [{ email := "alice@example.com", password := "h1",
                is_admin := false }]
    incomes := []
    expenses := []
    nextIncomeId := 1
    nextExpenseId := 1 }

/-- Two registered accounts, so one caller can observe the other
account's email in the users listing. -/
def dbW2 : DB :=
  { users := [{ email := "alice@example.com", password := "h1",
                is_admin := false },
              { email := "bob@example.com", password := "h2",
                is_admin := false }]
    incomes := []
    expenses := []
    nextIncomeId := 1
    nextExpenseId := 1 }

/-- Create body carrying a spoofed owner/email pair the handler must
ignore. -/
def biSpoof : IncomeBody :=
  { source := some "Paycheck", amount := some 100, cadence := none,
    date := some "2025-01-15", user_email := some "eve@example.com",
    email := some "eve@example.com" }

/-- Mixed-owner fixture rows: `alice` and `bob` each own one income and
one expense row. -/
def rAliceInc : IncomeRow :=
  ⟨1, "alice@example.com", "Job", 100, "monthly", "2025-01-02"⟩

def rBobInc : IncomeRow :=
  ⟨2, "bob@example.com", "Job", 50, "monthly", "2025-01-03"⟩

def rAliceExp : ExpenseRow :=
  ⟨1, "alice@example.com", "Food", none, 20, "2025-01-02", "monthly"⟩

def rBobExp : ExpenseRow :=
  ⟨2, "bob@example.com", "Rent", none, 30, "2025-01-03", "monthly"⟩

/-- Mixed-owner datastore. -/
def dbMix : DB :=
  { users := dbW2.users
    incomes := [rAliceInc, rBobInc]
    expenses := [rAliceExp, rBobExp]
    nextIncomeId := 3
    nextExpenseId := 3 }

/-- One account whose stored `is_admin` column is set. -/
def dbAdmin : DB :=
  { users := [⟨"admin@example.com", "h", true⟩]
    incomes := []
    expenses := []
    nextIncomeId := 1
    nextExpenseId := 1 }

/-- JWT environment holding a valid unexpired token for the stored-admin
account. -/
def envAdm : JwtEnv :=
  ⟨fun s =>
    if s = "atok" then some (⟨"admin@example.com", 100⟩, "secret0")
    else none⟩

/-! ## Helper lemmas -/

theorem findUser_eq_none_iff (db : DB) (e : String) :
    findUser db e = none ↔ ∀ u ∈ db.users, u.email ≠ e := by
  unfold findUser
  rw [List.head?_eq_none_iff, List.filter_eq_nil_iff]
  simp

theorem findUser_eq_some_mem (db : DB) (e : String) (u : UserRow)
    (h : findUser db e = some u) : u ∈ db.users ∧ u.email = e := by
  unfold findUser at h
  cases hf : db.users.filter (fun v => v.email == e) with
  | nil => rw [hf] at h; cases h
  | cons x xs =>
    rw [hf] at h
    have hxu : x = u := by simpa using h
    have hx : x ∈ db.users.filter (fun v => v.email == e) := by
      rw [hf]; exact List.mem_cons_self x xs
    have hm := List.mem_filter.mp hx
    rw [hxu] at hm
    exact ⟨hm.1, by simpa using hm.2⟩

theorem findUser_isSome_of_mem (db : DB) (e : String) (u : UserRow)
    (hm : u ∈ db.users) (he : u.email = e) :
    ∃ u2, findUser db e = some u2 := by
  cases hf : findUser db e with
  | some u2 => exact ⟨u2, rfl⟩
  | none =>
    rw [findUser_eq_none_iff] at hf
    exact absurd he (hf u hm)

theorem jwtVerify_eq_some_iff (env : JwtEnv) (secret : String) (now : Nat)
    (tok : String) (c : JwtClaims) :
    jwtVerify env secret now tok = some c ↔
      env.decode tok = some (c, secret) ∧ now < c.exp := by
  unfold jwtVerify
  cases h : env.decode tok with
  | none => simp
  | some p =>
    obtain ⟨c0, key⟩ := p
    simp only [Option.some.injEq, Prod.mk.injEq]
    split_ifs with hk
    · simp only [Option.some.injEq]
      constructor
      · rintro rfl
        exact ⟨⟨rfl, hk.1⟩, hk.2⟩
      · rintro ⟨⟨rfl, _⟩, _⟩
        rfl
    · constructor
      · intro h2
        simp at h2
      · rintro ⟨⟨rfl, rfl⟩, hlt⟩
        exact absurd ⟨rfl, hlt⟩ hk

/-! ## C3: token verifier acceptance -/

/-- C3. The `authenticateToken` middleware accepts the presented
bearer token exactly when its signature was made with the server secret,
the current time is before its expiry, and its subject email still exists
in the `user` table; a missing or malformed `Authorization` header (or an
empty token) yields 401 unauthenticated, a bad-signature/expired/garbled
token yields 401, and a valid unexpired token whose account was deleted
yields 403 forbidden. -/
theorem authenticateToken_spec (env : JwtEnv) (secret : String) (now : Nat)
    (db : DB) (hdr? : Option String) :
    ((∃ e a, authenticateToken env secret now db hdr? = .ok e a) ↔
      (∃ tok c, extractBearerToken (hdr?.getD "") = some tok ∧ tok ≠ "" ∧
        env.decode tok = some (c, secret) ∧ now < c.exp ∧
        ∃ u ∈ db.users, u.email = c.email))
    ∧ ((extractBearerToken (hdr?.getD "") = none ∨
          extractBearerToken (hdr?.getD "") = some "") →
        authenticateToken env secret now db hdr? =
          .fail 401 "Access denied. No token provided.")
    ∧ (∀ tok, extractBearerToken (hdr?.getD "") = some tok → tok ≠ "" →
        jwtVerify env secret now tok = none →
        authenticateToken env secret now db hdr? =
          .fail 401 "Invalid or expired token.")
    ∧ (∀ tok c, extractBearerToken (hdr?.getD "") = some tok → tok ≠ "" →
        jwtVerify env secret now tok = some c →
        (∀ u ∈ db.users, u.email ≠ c.email) →
        authenticateToken env secret now db hdr? =
          .fail 403 "Account not found or deactivated.") := by
  refine ⟨?_, ?_, ?_, ?_⟩
  · constructor
    · rintro ⟨e, a, h⟩
      unfold authenticateToken at h
      split at h
      · cases h
      · rename_i tok hx
        split at h
        · cases h
        · rename_i ht
          split at h
          · cases h
          · rename_i c hv
            split at h
            · cases h
            · rename_i u hf
              rw [jwtVerify_eq_some_iff] at hv
              obtain ⟨hm, he⟩ := findUser_eq_some_mem db c.email u hf
              exact ⟨tok, c, hx, ht, hv.1, hv.2, u, hm, he⟩
    · rintro ⟨tok, c, hx, ht, hdec, hexp, u, hm, he⟩
      have hv : jwtVerify env secret now tok = some c :=
        (jwtVerify_eq_some_iff env secret now tok c).mpr ⟨hdec, hexp⟩
      obtain ⟨u2, hu2⟩ := findUser_isSome_of_mem db c.email u hm he
      refine ⟨c.email, false, ?_⟩
      unfold authenticateToken
      rw [hx]
      show (if tok = "" then AuthOutcome.fail 401
          "Access denied. No token provided."
        else _) = _
      rw [if_neg ht, hv]
      show (match findUser db c.email with
        | none => AuthOutcome.fail 403 "Account not found or deactivated."
        | some _ => AuthOutcome.ok c.email false) = _
      rw [hu2]
  · intro h
    unfold authenticateToken
    rcases h with h | h
    · rw [h]
    · rw [h]
      rfl
  · intro tok hx ht hv
    unfold authenticateToken
    rw [hx]
    show (if tok = "" then AuthOutcome.fail 401
        "Access denied. No token provided."
      else _) = _
    rw [if_neg ht, hv]
  · intro tok c hx ht hv hne
    unfold authenticateToken
    rw [hx]
    show (if tok = "" then AuthOutcome.fail 401
        "Access denied. No token provided."
      else _) = _
    rw [if_neg ht, hv]
    show (match findUser db c.email with
      | none => AuthOutcome.fail 403 "Account not found or deactivated."
      | some _ => AuthOutcome.ok c.email false) = _
    rw [(findUser_eq_none_iff db c.email).mpr hne]

theorem authenticateToken_spec_witness :
    (∃ e a, authenticateToken envW "secret0" 0 dbW (some "Bearer tok") =
      AuthOutcome.ok e a) ∧
    authenticateToken envW "secret0" 0 dbW (some "Bearer gone") =
      AuthOutcome.fail 403 "Account not found or deactivated." := by
  constructor
  · exact (authenticateToken_spec envW "secret0" 0 dbW
      (some "Bearer tok")).1.mpr
      ⟨"tok", ⟨"alice@example.com", 100⟩, by decide, by decide, by decide,
        by decide,
        ⟨{ email := "alice@example.com", password := "h1", is_admin := false },
          by decide, by decide⟩⟩
  · exact (authenticateToken_spec envW "secret0" 0 dbW
      (some "Bearer gone")).2.2.2 "gone" ⟨"ghost@example.com", 100⟩
      (by decide) (by decide) (by decide) (by decide)

/-! ## C4: login failure indistinguishability -/

/-- C4. For well-formed login bodies, the response when the email is
unknown equals — same status, same message — the response when the email
exists but the bcrypt comparison fails: both are
`401 "Invalid email or password."`, so the two failure causes are
indistinguishable to the caller. -/
theorem login_failure_indistinguishable
    (compare : String → String → Bool) (sign : String → String)
    (db1 db2 : DB) (e1 p1 e2 p2 : String) (u : UserRow)
    (hwf1 : e1 ≠ "" ∧ p1 ≠ "") (hwf2 : e2 ≠ "" ∧ p2 ≠ "")
    (hmiss : findUser db1 e1 = none)
    (hhit : findUser db2 e2 = some u)
    (hbad : compare p2 u.password = false) :
    login compare sign db1 (some e1) (some p1) =
        LoginOutcome.fail 401 "Invalid email or password." ∧
      login compare sign db2 (some e2) (some p2) =
        LoginOutcome.fail 401 "Invalid email or password." ∧
      login compare sign db1 (some e1) (some p1) =
        login compare sign db2 (some e2) (some p2) := by
  have h1 : login compare sign db1 (some e1) (some p1) =
      LoginOutcome.fail 401 "Invalid email or password." := by
    unfold login
    rw [if_neg (by simp [jsStrTruthy, hwf1.1, hwf1.2])]
    simp only [Option.getD_some]
    rw [hmiss]
  have h2 : login compare sign db2 (some e2) (some p2) =
      LoginOutcome.fail 401 "Invalid email or password." := by
    unfold login
    rw [if_neg (by simp [jsStrTruthy, hwf2.1, hwf2.2])]
    simp only [Option.getD_some]
    rw [hhit]
    show (if compare p2 u.password then _ else _) = _
    rw [hbad]
    rfl
  exact ⟨h1, h2, h1.trans h2.symm⟩

theorem login_failure_indistinguishable_witness :
    login (fun _ _ => false) (fun _ => "t") dbW (some "bob@example.com")
        (some "pw") =
      login (fun _ _ => false) (fun _ => "t") dbW (some "alice@example.com")
        (some "pw") := by
  exact (login_failure_indistinguishable (fun _ _ => false) (fun _ => "t")
    dbW dbW "bob@example.com" "pw" "alice@example.com" "pw"
    { email := "alice@example.com", password := "h1", is_admin := false }
    ⟨by decide, by decide⟩ ⟨by decide, by decide⟩ (by decide) (by decide)
    rfl).2.2

/-! ## C10: the users listing reveals every account -/

/-- C10. For any request that passes `authenticateToken`,
`GET /api/users` returns the email of every account in the `user` table —
the query has no owner filter — so each authenticated caller learns the
existence and email of every other registered account. -/
theorem usersEndpoint_returns_all_emails (env : JwtEnv) (secret : String)
    (now : Nat) (db : DB) (hdr? : Option String) (e : String) (a : Bool)
    (hok : authenticateToken env secret now db hdr? = AuthOutcome.ok e a) :
    usersEndpoint env secret now db hdr? =
        UsersOutcome.ok (db.users.map (fun u => u.email)) ∧
      ∀ u ∈ db.users, u.email ∈ db.users.map (fun u => u.email) := by
  constructor
  · unfold usersEndpoint
    rw [hok]
    rfl
  · intro u hu
    exact List.mem_map_of_mem _ hu

theorem usersEndpoint_returns_all_emails_witness :
    usersEndpoint envW "secret0" 0 dbW2 (some "Bearer tok") =
        UsersOutcome.ok ["alice@example.com", "bob@example.com"] ∧
      "bob@example.com" ∈ dbW2.users.map (fun u => u.email) := by
  have h := usersEndpoint_returns_all_emails envW "secret0" 0 dbW2
    (some "Bearer tok") "alice@example.com" false (by decide)
  refine ⟨h.1, h.2 ⟨"bob@example.com", "h2", false⟩ (by decide)⟩

/-! ## C9: delete of a non-matching id/owner pair -/

theorem deleteIncome_of_no_match (db : DB) (A : String) (id : Nat)
    (h : db.incomes.countP (incomeMatch id A) = 0) :
    deleteIncome db A id = (db, MutOutcome.fail 404 "Income not found.") := by
  have hall : ∀ r ∈ db.incomes, incomeMatch id A r = false := by
    intro r hr
    have := List.countP_eq_zero.mp h r hr
    simpa using this
  have hfil : db.incomes.filter (fun r => !incomeMatch id A r) = db.incomes :=
    List.filter_eq_self.mpr (by intro r hr; simp [hall r hr])
  simp only [deleteIncome, h, hfil]
  rfl

theorem deleteExpense_of_no_match (db : DB) (A : String) (id : Nat)
    (h : db.expenses.countP (expenseMatch id A) = 0) :
    deleteExpense db A id = (db, MutOutcome.fail 404 "Expense not found.") := by
  have hall : ∀ r ∈ db.expenses, expenseMatch id A r = false := by
    intro r hr
    have := List.countP_eq_zero.mp h r hr
    simpa using this
  have hfil : db.expenses.filter (fun r => !expenseMatch id A r) =
      db.expenses :=
    List.filter_eq_self.mpr (by intro r hr; simp [hall r hr])
  simp only [deleteExpense, h, hfil]
  rfl

theorem deleteIncome_fst_incomes (db : DB) (A : String) (id : Nat) :
    (deleteIncome db A id).1.incomes =
      db.incomes.filter (fun r => !incomeMatch id A r) := by
  simp only [deleteIncome]
  split <;> rfl

theorem deleteExpense_fst_expenses (db : DB) (A : String) (id : Nat) :
    (deleteExpense db A id).1.expenses =
      db.expenses.filter (fun r => !expenseMatch id A r) := by
  simp only [deleteExpense]
  split <;> rfl

/-- C9. A delete whose id/owner pair matches no row responds 404 (never
a 500 server error) and leaves the datastore unchanged; and after any
delete, repeating the same delete matches nothing, responds 404, and
changes nothing — deleting is idempotent. -/
theorem delete_notfound_idempotent (db : DB) (A : String) (id : Nat) :
    (db.incomes.countP (incomeMatch id A) = 0 →
      deleteIncome db A id = (db, MutOutcome.fail 404 "Income not found.")) ∧
    (∀ m, (deleteIncome db A id).2 ≠ MutOutcome.fail 500 m) ∧
    deleteIncome (deleteIncome db A id).1 A id =
      ((deleteIncome db A id).1, MutOutcome.fail 404 "Income not found.") ∧
    (db.expenses.countP (expenseMatch id A) = 0 →
      deleteExpense db A id = (db, MutOutcome.fail 404 "Expense not found.")) ∧
    (∀ m, (deleteExpense db A id).2 ≠ MutOutcome.fail 500 m) ∧
    deleteExpense (deleteExpense db A id).1 A id =
      ((deleteExpense db A id).1,
        MutOutcome.fail 404 "Expense not found.") := by
  refine ⟨deleteIncome_of_no_match db A id, ?_, ?_,
    deleteExpense_of_no_match db A id, ?_, ?_⟩
  · simp only [deleteIncome]
    split <;> intro m hcon <;> simp at hcon
  · apply deleteIncome_of_no_match
    rw [deleteIncome_fst_incomes, List.countP_eq_zero]
    intro r hr
    have := (List.mem_filter.mp hr).2
    simpa using this
  · simp only [deleteExpense]
    split <;> intro m hcon <;> simp at hcon
  · apply deleteExpense_of_no_match
    rw [deleteExpense_fst_expenses, List.countP_eq_zero]
    intro r hr
    have := (List.mem_filter.mp hr).2
    simpa using this

theorem delete_notfound_idempotent_witness :
    deleteIncome dbW "alice@example.com" 7 =
      (dbW, MutOutcome.fail 404 "Income not found.") :=
  (delete_notfound_idempotent dbW "alice@example.com" 7).1 (by decide)

/-! ## C2: creation stamps the authenticated owner -/

/-- C2. Every row a create request adds carries the authenticated
identity as `user_email`, and the outcome is wholly independent of any
owner/email field the client puts in the body (the handler never reads
them). -/
theorem create_stamps_owner (db : DB) (auth : String) (bi : IncomeBody)
    (be : ExpenseBody) :
    (∀ r ∈ (createIncome db auth bi).1.incomes,
      r ∈ db.incomes ∨ r.user_email = auth) ∧
    (∀ o e, createIncome db auth { bi with user_email := o, email := e } =
      createIncome db auth bi) ∧
    (∀ r ∈ (createExpense db auth be).1.expenses,
      r ∈ db.expenses ∨ r.user_email = auth) ∧
    (∀ o e, createExpense db auth { be with user_email := o, email := e } =
      createExpense db auth be) := by
  refine ⟨?_, ?_, ?_, ?_⟩
  · intro r hr
    unfold createIncome at hr
    split at hr
    · exact Or.inl hr
    · rcases List.mem_append.mp hr with h | h
      · exact Or.inl h
      · rcases List.mem_singleton.mp h with rfl
        exact Or.inr rfl
  · intro o e
    cases bi
    rfl
  · intro r hr
    unfold createExpense at hr
    split at hr
    · exact Or.inl hr
    · rcases List.mem_append.mp hr with h | h
      · exact Or.inl h
      · rcases List.mem_singleton.mp h with rfl
        exact Or.inr rfl
  · intro o e
    cases be
    rfl

theorem create_stamps_owner_witness :
    ({ id := 1, user_email := "alice@example.com", source := "Paycheck",
       amount := 100, cadence := "monthly",
       date := "2025-01-15" } : IncomeRow) ∈ dbW.incomes ∨
    ({ id := 1, user_email := "alice@example.com", source := "Paycheck",
       amount := 100, cadence := "monthly",
       date := "2025-01-15" } : IncomeRow).user_email =
      "alice@example.com" :=
  (create_stamps_owner dbW "alice@example.com" biSpoof
    { category := none, description := none, amount := none, date := none,
      cadence := none, user_email := none, email := none }).1
    { id := 1, user_email := "alice@example.com", source := "Paycheck",
      amount := 100, cadence := "monthly", date := "2025-01-15" }
    (by decide)

/-! ## C5: create validation (corrected) -/

/-- C5 counterexample. A create request whose amount is the
non-positive number −5 is not rejected: the handler checks only presence
of `source`/`amount`/`date`, so the row is created (id 1), refuting the
claimed positive-amount validation. -/
theorem create_validation_cex :
    ({ source := some "Paycheck", amount := some (-5), cadence := none,
       date := some "2025-01-15", user_email := none,
       email := none } : IncomeBody).amount = some (-5) ∧
    (-5 : Int) ≤ 0 ∧
    (createIncome dbW "alice@example.com"
      { source := some "Paycheck", amount := some (-5), cadence := none,
        date := some "2025-01-15", user_email := none, email := none }).2 =
      CreateOutcome.created 1 := by
  refine ⟨rfl, by decide, ?_⟩
  decide

/-- C5 (amended). A create request is rejected — always with the one
fixed message naming the three required fields — exactly when the
classification field is absent or empty, the amount key is absent, or the
date is absent or empty; no positivity, length, or calendar-validity check
exists, and violations are not enumerated individually. -/
theorem create_validation_presence_only (db : DB) (auth : String)
    (bi : IncomeBody) (be : ExpenseBody) :
    ((createIncome db auth bi).2 =
        CreateOutcome.fail 400 "source, amount, and date are required" ↔
      (jsStrTruthy bi.source = false ∨ bi.amount = none ∨
        jsStrTruthy bi.date = false)) ∧
    ((createExpense db auth be).2 =
        CreateOutcome.fail 400 "category, amount, and date are required" ↔
      (jsStrTruthy be.category = false ∨ be.amount = none ∨
        jsStrTruthy be.date = false)) := by
  constructor
  · unfold createIncome
    split
    · rename_i hcond
      simp only [Bool.or_eq_true, Bool.not_eq_true', Option.isNone_iff_eq_none]
        at hcond
      exact iff_of_true rfl (by tauto)
    · rename_i hcond
      simp only [Bool.or_eq_true, Bool.not_eq_true', Option.isNone_iff_eq_none]
        at hcond
      exact iff_of_false (by simp) (by tauto)
  · unfold createExpense
    split
    · rename_i hcond
      simp only [Bool.or_eq_true, Bool.not_eq_true', Option.isNone_iff_eq_none]
        at hcond
      exact iff_of_true rfl (by tauto)
    · rename_i hcond
      simp only [Bool.or_eq_true, Bool.not_eq_true', Option.isNone_iff_eq_none]
        at hcond
      exact iff_of_false (by simp) (by tauto)

theorem create_validation_presence_only_witness :
    (createIncome dbW "alice@example.com"
      { source := none, amount := some 3, cadence := none,
        date := some "2025-01-15", user_email := none, email := none }).2 =
      CreateOutcome.fail 400 "source, amount, and date are required" :=
  (create_validation_presence_only dbW "alice@example.com"
    { source := none, amount := some 3, cadence := none,
      date := some "2025-01-15", user_email := none, email := none }
    { category := none, description := none, amount := none, date := none,
      cadence := none, user_email := none, email := none }).1.mpr
    (Or.inl (by decide))

/-! ## C1: per-user data isolation -/

theorem map_id_of_mem {α : Type} (l : List α) (f : α → α)
    (h : ∀ a ∈ l, f a = a) : l.map f = l :=
  (List.map_congr_left h).trans (List.map_id l)

theorem updateIncome_of_no_match (db : DB) (A : String) (id : Nat)
    (p : IncomePatch) (hf : p.hasFields = true)
    (h : ∀ r ∈ db.incomes, incomeMatch id A r = false) :
    updateIncome db A id p = (db, MutOutcome.fail 404 "Income not found.") := by
  have hmap : db.incomes.map
      (fun r => if incomeMatch id A r then applyIncomePatch p r else r) =
      db.incomes :=
    map_id_of_mem _ _ (by intro r hr; rw [h r hr]; simp)
  have hcnt : db.incomes.countP
      (fun r => incomeMatch id A r && !(applyIncomePatch p r == r)) = 0 :=
    List.countP_eq_zero.mpr (by intro r hr; simp [h r hr])
  simp only [updateIncome, hf, hcnt, hmap]
  rfl

theorem updateExpense_of_no_match (db : DB) (A : String) (id : Nat)
    (p : ExpensePatch) (hf : p.hasFields = true)
    (h : ∀ r ∈ db.expenses, expenseMatch id A r = false) :
    updateExpense db A id p =
      (db, MutOutcome.fail 404 "Expense not found.") := by
  have hmap : db.expenses.map
      (fun r => if expenseMatch id A r then applyExpensePatch p r else r) =
      db.expenses :=
    map_id_of_mem _ _ (by intro r hr; rw [h r hr]; simp)
  have hcnt : db.expenses.countP
      (fun r => expenseMatch id A r && !(applyExpensePatch p r == r)) = 0 :=
    List.countP_eq_zero.mpr (by intro r hr; simp [h r hr])
  simp only [updateExpense, hf, hcnt, hmap]
  rfl

theorem updateIncome_fst_incomes (db : DB) (A : String) (id : Nat)
    (p : IncomePatch) (hf : p.hasFields = true) :
    (updateIncome db A id p).1.incomes = db.incomes.map
      (fun r => if incomeMatch id A r then applyIncomePatch p r else r) := by
  simp only [updateIncome, hf, Bool.not_true]
  rw [if_neg (by simp)]
  split <;> rfl

theorem updateExpense_fst_expenses (db : DB) (A : String) (id : Nat)
    (p : ExpensePatch) (hf : p.hasFields = true) :
    (updateExpense db A id p).1.expenses = db.expenses.map
      (fun r => if expenseMatch id A r then applyExpensePatch p r else r) := by
  simp only [updateExpense, hf, Bool.not_true]
  rw [if_neg (by simp)]
  split <;> rfl

theorem incomeMatch_false_of_other_owner (id : Nat) (A : String)
    (r : IncomeRow) (hne : r.user_email ≠ A) :
    incomeMatch id A r = false := by
  have h2 : (r.user_email == A) = false := beq_eq_false_iff_ne.mpr hne
  simp [incomeMatch, h2]

theorem expenseMatch_false_of_other_owner (id : Nat) (A : String)
    (r : ExpenseRow) (hne : r.user_email ≠ A) :
    expenseMatch id A r = false := by
  have h2 : (r.user_email == A) = false := beq_eq_false_iff_ne.mpr hne
  simp [expenseMatch, h2]

/-- C1. Requests authenticated as `A` cannot touch another user's
financial records: any admissible list result contains only rows owned by
`A`; an update or delete naming an id that `A` does not own (for example an
id owned by `B`) changes nothing and responds 404 not-found (not 403
forbidden); and rows owned by anyone other than `A` survive every update
and delete `A` issues, unmodified. -/
theorem ownership_isolation (db : DB) (A : String) (id : Nat)
    (pi : IncomePatch) (pe : ExpensePatch) (fromQ toQ : Option String) :
    (∀ rows, isIncomeListResult db A fromQ toQ rows →
      ∀ r ∈ rows, r.user_email = A) ∧
    (∀ rows, isExpenseListResult db A fromQ toQ rows →
      ∀ r ∈ rows, r.user_email = A) ∧
    (pi.hasFields = true → (∀ r ∈ db.incomes, incomeMatch id A r = false) →
      updateIncome db A id pi =
        (db, MutOutcome.fail 404 "Income not found.")) ∧
    (pe.hasFields = true → (∀ r ∈ db.expenses, expenseMatch id A r = false) →
      updateExpense db A id pe =
        (db, MutOutcome.fail 404 "Expense not found.")) ∧
    (∀ r ∈ db.incomes, r.user_email ≠ A →
      r ∈ (updateIncome db A id pi).1.incomes) ∧
    (∀ r ∈ db.expenses, r.user_email ≠ A →
      r ∈ (updateExpense db A id pe).1.expenses) ∧
    ((∀ r ∈ db.incomes, incomeMatch id A r = false) →
      deleteIncome db A id = (db, MutOutcome.fail 404 "Income not found.")) ∧
    ((∀ r ∈ db.expenses, expenseMatch id A r = false) →
      deleteExpense db A id =
        (db, MutOutcome.fail 404 "Expense not found.")) ∧
    (∀ r ∈ db.incomes, r.user_email ≠ A →
      r ∈ (deleteIncome db A id).1.incomes) ∧
    (∀ r ∈ db.expenses, r.user_email ≠ A →
      r ∈ (deleteExpense db A id).1.expenses) := by
  refine ⟨?_, ?_, updateIncome_of_no_match db A id pi,
    updateExpense_of_no_match db A id pe, ?_, ?_, ?_, ?_, ?_, ?_⟩
  · rintro rows ⟨hperm, _⟩ r hr
    have hmem := hperm.mem_iff.mp hr
    have := (List.mem_filter.mp hmem).2
    have := (Bool.and_eq_true _ _).mp this
    exact beq_iff_eq.mp this.1
  · rintro rows ⟨hperm, _⟩ r hr
    have hmem := hperm.mem_iff.mp hr
    have := (List.mem_filter.mp hmem).2
    have := (Bool.and_eq_true _ _).mp this
    exact beq_iff_eq.mp this.1
  · intro r hr hne
    by_cases hf : pi.hasFields = true
    · rw [updateIncome_fst_incomes db A id pi hf]
      have himg : (fun r =>
          if incomeMatch id A r then applyIncomePatch pi r else r) r = r := by
        show (if incomeMatch id A r then applyIncomePatch pi r else r) = r
        rw [incomeMatch_false_of_other_owner id A r hne]
        simp
      exact himg ▸ List.mem_map_of_mem _ hr
    · have hff : pi.hasFields = false := by
        revert hf
        cases pi.hasFields <;> simp
      simp only [updateIncome, hff]
      exact hr
  · intro r hr hne
    by_cases hf : pe.hasFields = true
    · rw [updateExpense_fst_expenses db A id pe hf]
      have himg : (fun r =>
          if expenseMatch id A r then applyExpensePatch pe r else r) r = r := by
        show (if expenseMatch id A r then applyExpensePatch pe r else r) = r
        rw [expenseMatch_false_of_other_owner id A r hne]
        simp
      exact himg ▸ List.mem_map_of_mem _ hr
    · have hff : pe.hasFields = false := by
        revert hf
        cases pe.hasFields <;> simp
      simp only [updateExpense, hff]
      exact hr
  · intro h
    exact deleteIncome_of_no_match db A id
      (List.countP_eq_zero.mpr (by intro r hr; simp [h r hr]))
  · intro h
    exact deleteExpense_of_no_match db A id
      (List.countP_eq_zero.mpr (by intro r hr; simp [h r hr]))
  · intro r hr hne
    rw [deleteIncome_fst_incomes]
    exact List.mem_filter.mpr
      ⟨hr, by rw [incomeMatch_false_of_other_owner id A r hne]; rfl⟩
  · intro r hr hne
    rw [deleteExpense_fst_expenses]
    exact List.mem_filter.mpr
      ⟨hr, by rw [expenseMatch_false_of_other_owner id A r hne]; rfl⟩

theorem ownership_isolation_witness :
    updateIncome dbMix "alice@example.com" 2
        ⟨some "X", none, none, none⟩ =
      (dbMix, MutOutcome.fail 404 "Income not found.") ∧
    deleteExpense dbMix "alice@example.com" 2 =
      (dbMix, MutOutcome.fail 404 "Expense not found.") := by
  have h := ownership_isolation dbMix "alice@example.com" 2
    ⟨some "X", none, none, none⟩
    ⟨none, none, none, none, none⟩ none none
  exact ⟨h.2.2.1 (by decide) (by decide), h.2.2.2.2.2.2.2.1 (by decide)⟩

/-! ## C6: list ordering (corrected) -/

/-- C6 counterexample. With two equal-date rows inserted in order
id 1 then id 2, the reversed order `[id 2, id 1]` is an admissible result
of `SELECT ... ORDER BY date DESC` (the query names no secondary sort
key), yet it differs from the date-descending listing with the claimed
insertion-order tiebreak — so the returned order is not determined, and
the claimed secondary insertion-order key does not exist. -/
theorem income_list_order_cex :
    isIncomeListResult
      ⟨[], [⟨1, "alice@example.com", "s1", 5, "monthly", "2025-01-01"⟩,
            ⟨2, "alice@example.com", "s2", 7, "monthly", "2025-01-01"⟩],
        [], 3, 3⟩ "alice@example.com" none none
      [⟨2, "alice@example.com", "s2", 7, "monthly", "2025-01-01"⟩,
       ⟨1, "alice@example.com", "s1", 5, "monthly", "2025-01-01"⟩] ∧
    [⟨2, "alice@example.com", "s2", 7, "monthly", "2025-01-01"⟩,
     ⟨1, "alice@example.com", "s1", 5, "monthly", "2025-01-01"⟩] ≠
      stableIncomeListing
        ⟨[], [⟨1, "alice@example.com", "s1", 5, "monthly", "2025-01-01"⟩,
              ⟨2, "alice@example.com", "s2", 7, "monthly", "2025-01-01"⟩],
          [], 3, 3⟩ "alice@example.com" none none := by
  refine ⟨⟨by decide, by decide⟩, by decide⟩

/-- C6 (amended). Any admissible list result consists of exactly the
caller's owned rows in the inclusive range (same rows, same multiplicity,
and none missing), in weakly descending date order; the relative order of
rows with equal dates is unspecified, since the query has no secondary
sort key. -/
theorem list_results_owned_sorted (db : DB) (email : String)
    (fromQ toQ : Option String) (rows : List IncomeRow)
    (erows : List ExpenseRow) :
    (isIncomeListResult db email fromQ toQ rows →
      (∀ r ∈ rows, r ∈ db.incomes ∧ r.user_email = email ∧
        inRange (dateRange fromQ toQ) r.date = true) ∧
      (∀ r ∈ db.incomes, r.user_email = email →
        inRange (dateRange fromQ toQ) r.date = true → r ∈ rows) ∧
      rows.Pairwise (fun a b => dateLe b.date a.date = true) ∧
      rows.length = (incomeRowsFor db email fromQ toQ).length) ∧
    (isExpenseListResult db email fromQ toQ erows →
      (∀ r ∈ erows, r ∈ db.expenses ∧ r.user_email = email ∧
        inRange (dateRange fromQ toQ) r.date = true) ∧
      (∀ r ∈ db.expenses, r.user_email = email →
        inRange (dateRange fromQ toQ) r.date = true → r ∈ erows) ∧
      erows.Pairwise (fun a b => dateLe b.date a.date = true) ∧
      erows.length = (expenseRowsFor db email fromQ toQ).length) := by
  constructor
  · rintro ⟨hperm, hsorted⟩
    refine ⟨?_, ?_, hsorted, hperm.length_eq⟩
    · intro r hr
      have hmem := hperm.mem_iff.mp hr
      have h2 := (List.mem_filter.mp hmem).2
      have h3 := (Bool.and_eq_true _ _).mp h2
      exact ⟨(List.mem_filter.mp hmem).1, beq_iff_eq.mp h3.1, h3.2⟩
    · intro r hr hown hin
      refine hperm.mem_iff.mpr (List.mem_filter.mpr ⟨hr, ?_⟩)
      rw [hown]
      simp [hin]
  · rintro ⟨hperm, hsorted⟩
    refine ⟨?_, ?_, hsorted, hperm.length_eq⟩
    · intro r hr
      have hmem := hperm.mem_iff.mp hr
      have h2 := (List.mem_filter.mp hmem).2
      have h3 := (Bool.and_eq_true _ _).mp h2
      exact ⟨(List.mem_filter.mp hmem).1, beq_iff_eq.mp h3.1, h3.2⟩
    · intro r hr hown hin
      refine hperm.mem_iff.mpr (List.mem_filter.mpr ⟨hr, ?_⟩)
      rw [hown]
      simp [hin]

theorem list_results_owned_sorted_witness :
    rAliceInc ∈ dbMix.incomes ∧ rAliceInc.user_email = "alice@example.com" ∧
      inRange (dateRange none none) rAliceInc.date = true :=
  ((list_results_owned_sorted dbMix "alice@example.com" none none
    [rAliceInc] []).1 ⟨by decide, by decide⟩).1 rAliceInc (by decide)

/-! ## C7: reports -/

theorem incomeRowsFor_restrict (db : DB) (email : String)
    (fromQ toQ : Option String) :
    incomeRowsFor (restrictToOwner db email) email fromQ toQ =
      incomeRowsFor db email fromQ toQ := by
  unfold incomeRowsFor restrictToOwner
  rw [List.filter_filter]
  apply List.filter_congr
  intro r _
  cases hq : (r.user_email == email) <;>
    simp [hq]

theorem expenseRowsFor_restrict (db : DB) (email : String)
    (fromQ toQ : Option String) :
    expenseRowsFor (restrictToOwner db email) email fromQ toQ =
      expenseRowsFor db email fromQ toQ := by
  unfold expenseRowsFor restrictToOwner
  rw [List.filter_filter]
  apply List.filter_congr
  intro r _
  cases hq : (r.user_email == email) <;>
    simp [hq]

/-- C7. The report's income and expense totals are the sums of the
caller's own rows in the (optional, inclusive) range, net is their
difference, and the expense breakdown has one entry per distinct
classification of the caller's in-range expense rows — carrying that
group's exact total — sorted by total descending; and the whole report is
unchanged if every other user's rows are removed from the datastore, so
no other user's row contributes. -/
theorem report_spec (db : DB) (email : String) (fromQ toQ : Option String) :
    (buildReport db email fromQ toQ).totals.income =
      ((incomeRowsFor db email fromQ toQ).map (fun r => r.amount)).sum ∧
    (buildReport db email fromQ toQ).totals.expenses =
      ((expenseRowsFor db email fromQ toQ).map (fun r => r.amount)).sum ∧
    (buildReport db email fromQ toQ).totals.net =
      (buildReport db email fromQ toQ).totals.income -
        (buildReport db email fromQ toQ).totals.expenses ∧
    List.Sorted catDescRel (buildReport db email fromQ toQ).expensesByCategory ∧
    (∀ p ∈ (buildReport db email fromQ toQ).expensesByCategory,
      p.2 = categoryTotal (expenseRowsFor db email fromQ toQ) p.1 ∧
      p.1 ∈ (expenseRowsFor db email fromQ toQ).map (fun r => r.category)) ∧
    (∀ r ∈ expenseRowsFor db email fromQ toQ,
      (r.category,
        categoryTotal (expenseRowsFor db email fromQ toQ) r.category) ∈
        (buildReport db email fromQ toQ).expensesByCategory) ∧
    buildReport db email fromQ toQ =
      buildReport (restrictToOwner db email) email fromQ toQ := by
  refine ⟨rfl, rfl, rfl, List.sorted_insertionSort catDescRel _, ?_, ?_, ?_⟩
  · intro p hp
    have hmem : p ∈ groupTotals (expenseRowsFor db email fromQ toQ) :=
      (List.perm_insertionSort catDescRel _).mem_iff.mp hp
    obtain ⟨c, hc, hpc⟩ := List.mem_map.mp hmem
    cases hpc
    exact ⟨rfl, List.mem_dedup.mp hc⟩
  · intro r hr
    have hc : r.category ∈
        ((expenseRowsFor db email fromQ toQ).map
          (fun r => r.category)).dedup :=
      List.mem_dedup.mpr (List.mem_map_of_mem _ hr)
    have hg : (r.category,
        categoryTotal (expenseRowsFor db email fromQ toQ) r.category) ∈
        groupTotals (expenseRowsFor db email fromQ toQ) :=
      List.mem_map_of_mem _ hc
    exact (List.perm_insertionSort catDescRel _).mem_iff.mpr hg
  · have hI := incomeRowsFor_restrict db email fromQ toQ
    have hE := expenseRowsFor_restrict db email fromQ toQ
    unfold buildReport incomeTotal expenseTotal
    rw [hI, hE]

theorem report_spec_witness :
    (rAliceExp.category,
      categoryTotal (expenseRowsFor dbMix "alice@example.com" none none)
        rAliceExp.category) ∈
      (buildReport dbMix "alice@example.com" none none).expensesByCategory :=
  (report_spec dbMix "alice@example.com" none none).2.2.2.2.2.1 rAliceExp
    (by decide)

/-! ## C8: admin listing (code bug) -/

theorem authenticateToken_ok_is_admin_false (env : JwtEnv) (secret : String)
    (now : Nat) (db : DB) (hdr? : Option String) (e : String) (a : Bool)
    (h : authenticateToken env secret now db hdr? = AuthOutcome.ok e a) :
    a = false := by
  unfold authenticateToken at h
  split at h
  · cases h
  · split at h
    · cases h
    · split at h
      · cases h
      · split at h
        · cases h
        · cases h
          rfl

/-- Source: `server.js` hardcodes `is_admin: 0` in the identity context, so the
admin listing can never succeed, whatever the stored admin flag says. -/
theorem adminUsersEndpoint_never_ok (env : JwtEnv) (secret : String)
    (now : Nat) (db : DB) (hdr? : Option String)
    (rows : List (String × Bool)) :
    adminUsersEndpoint env secret now db hdr? ≠ AdminOutcome.ok rows := by
  unfold adminUsersEndpoint
  cases hA : authenticateToken env secret now db hdr? with
  | fail s m =>
    intro hcon
    cases hcon
  | ok e a =>
    have ha := authenticateToken_ok_is_admin_false env secret now db hdr?
      e a hA
    subst ha
    intro hcon
    cases hcon

/-- C8 (code bug). An account whose stored `is_admin` column is set
presents a valid token; `authenticateToken` accepts it but stamps the
identity context with the constant `is_admin := false` (`server.js` line
56 hardcodes `is_admin: 0` instead of reading the column), so
`GET /api/admin/users` answers 403 forbidden — the claimed
admin-flag-implies-success direction fails for every input. -/
theorem adminUsers_stored_admin_forbidden :
    (∃ u ∈ dbAdmin.users, u.email = "admin@example.com" ∧
      u.is_admin = true) ∧
    authenticateToken envAdm "secret0" 0 dbAdmin (some "Bearer atok") =
      AuthOutcome.ok "admin@example.com" false ∧
    adminUsersEndpoint envAdm "secret0" 0 dbAdmin (some "Bearer atok") =
      AdminOutcome.fail 403 "Admin privileges required." := by
  refine ⟨⟨⟨"admin@example.com", "h", true⟩, by decide, rfl, rfl⟩,
    by decide, by decide⟩

end FinTrack
